import Mathlib

/-!
Verification of the permit-token contract (src/cep18-permit-token) against its
natural-language specification.

The development shallowly embeds the contract sources:
  - `constants.rs` : error codes and the signable-message domain prefix;
  - `storage.rs`   : dictionary-backed balance / allowance / nonce maps, here
    total functions with default value 0, matching the `unwrap_or_else(zero)`
    reads (dictionary keys are the `Display` renderings of account hashes,
    which are injective on accounts and on owner/spender pairs, so keying the
    maps directly by account is faithful);
  - `lib.rs`       : `internal_transfer`, `do_transfer`, `do_approve`,
    `do_transfer_from`, `validate_deadline`, `validate_nonce`,
    `process_nonce_for_payment`, `construct_message`, `do_claim_payment`.

Machine integers are modelled as `Nat`. `U256` arithmetic in `casper_types`
(the `uint` crate) unconditionally panics on overflow, modelled by the
`overflowPanic` outcome. External capabilities consumed by the contract
(`runtime::get_blocktime`, the stored contract hash, `AccountHash::from` on a
public key, hex decoding plus `casper_types::crypto::verify`, and the
`Display` rendering of accounts) are parameters of an explicit context
structure `Ctx`.

Every externally callable operation is given in two layers: a raw layer that
threads the state exactly as the Rust statements execute (so a write made
before a later failure is visible in the raw result), and an observable layer
`run_call` modelling the Casper entry-point boundary: the entry points end in
`.unwrap_or_revert()`, and on an error or panic the Casper execution engine
discards every write of the call (spec section 5, the all-or-nothing
transactional rollback of the host).
-/

namespace CasperX402

/-- Account identifiers (`AccountHash`, a 32-byte hash) are opaque values
compared by value; we model them as natural numbers. -/
abbrev AccountHash := Nat

/-- Public keys are opaque at the level of the contract logic. -/
abbrev PublicKey := Nat

/-- Modulus of the 64-bit unsigned integers (`u64`). -/
def U64_MOD : Nat := 2 ^ 64

/-- Modulus of the 256-bit unsigned integers (`U256`). -/
def U256_MOD : Nat := 2 ^ 256

-- Error code constants, from constants.rs lines 25-30.

def ERROR_INSUFFICIENT_BALANCE : Nat := 100

def ERROR_INSUFFICIENT_ALLOWANCE : Nat := 101

def ERROR_INVALID_NONCE : Nat := 200

def ERROR_INVALID_SIGNATURE : Nat := 201

def ERROR_EXPIRED : Nat := 202

def ERROR_ZERO_ADDRESS : Nat := 203

/-- Domain-separation prefix of the signable message, constants.rs line 38. -/
def CASPER_MESSAGE_PREFIX : String := "Casper Message:\nx402-casper"

/-- Outcome of a failing contract call: either an `ApiError::User(code)`
returned through `Result`, or a panic raised by the checked `U256` / `u64`
arithmetic.  Both abort the invocation. -/
inductive ContractError
  | user (code : Nat)
  | overflowPanic
deriving DecidableEq, Repr

/-- constants.rs line 41. -/
def insufficient_balance_error : ContractError := .user ERROR_INSUFFICIENT_BALANCE

/-- constants.rs line 45. -/
def insufficient_allowance_error : ContractError := .user ERROR_INSUFFICIENT_ALLOWANCE

/-- constants.rs line 49. -/
def invalid_nonce_error : ContractError := .user ERROR_INVALID_NONCE

/-- constants.rs line 53. -/
def invalid_signature_error : ContractError := .user ERROR_INVALID_SIGNATURE

/-- constants.rs line 57. -/
def expired_error : ContractError := .user ERROR_EXPIRED

/-- constants.rs line 61. -/
def zero_address_error : ContractError := .user ERROR_ZERO_ADDRESS

/-- Events emitted by the contract (`emit_transfer_event`,
`emit_approval_event`, `emit_payment_claimed_event` in lib.rs); the string
formatting of `emit_event` is abstracted to the structured payload. -/
inductive Event
  | transfer (frm dst : AccountHash) (amount : Nat)
  | approval (owner spender : AccountHash) (amount : Nat)
  | paymentClaimed (user recipient : AccountHash) (amount : Nat) (nonce : Nat)
deriving DecidableEq, Repr

/-- The persistent dictionaries of the contract (storage.rs): balances,
allowances, and nonces, each read with default 0 for absent keys. -/
structure TokenState where
  balances : AccountHash → Nat
  allowances : AccountHash → AccountHash → Nat
  nonces : AccountHash → Nat

/-- storage.rs lines 55-58: read of the balances dictionary, default 0. -/
def get_balance (s : TokenState) (account : AccountHash) : Nat :=
  s.balances account

/-- storage.rs lines 61-64: overwrite of a balances entry. -/
def set_balance (s : TokenState) (account : AccountHash) (balance : Nat) : TokenState :=
  { s with balances := fun a => if a = account then balance else s.balances a }

/-- storage.rs lines 68-71: read of an allowances entry, default 0. -/
def get_allowance (s : TokenState) (owner spender : AccountHash) : Nat :=
  s.allowances owner spender

/-- storage.rs lines 74-77: overwrite of an allowances entry. -/
def set_allowance (s : TokenState) (owner spender : AccountHash) (amount : Nat) : TokenState :=
  { s with allowances := fun o sp => if o = owner ∧ sp = spender then amount else s.allowances o sp }

/-- storage.rs lines 81-84: read of the nonces dictionary, default 0. -/
def get_nonce (s : TokenState) (account : AccountHash) : Nat :=
  s.nonces account

/-- storage.rs lines 87-90: overwrite of a nonces entry. -/
def set_nonce (s : TokenState) (account : AccountHash) (nonce : Nat) : TokenState :=
  { s with nonces := fun a => if a = account then nonce else s.nonces a }

/-- Modelled from the spec: the body is `increment_nonce` of storage.rs lines
93-98 (`let new_nonce = current_nonce + 1; set_nonce(account, new_nonce)`),
but the sources do not contain the build profile that fixes the behaviour of
the Rust `+` on `u64` at overflow (no Cargo.toml is present), so the addition
is modelled as overflow-checked per spec section 4.1 ("checked arithmetic",
"overflow is a fatal condition, not silently wrapped"): at `u64::MAX` the
increment is a fatal panic and the state is not written.  Returns the state,
the returned new value, and the possible panic. -/
def increment_nonce (s : TokenState) (account : AccountHash) :
    TokenState × Nat × Option ContractError :=
  let current_nonce := get_nonce s account
  if current_nonce + 1 < U64_MOD then
    (set_nonce s account (current_nonce + 1), current_nonce + 1, none)
  else
    (s, 0, some .overflowPanic)

/-- lib.rs lines 161-187: `internal_transfer`.  A self-transfer returns `Ok`
before any check or write; otherwise both balances are read, the sender
balance is required to cover the amount, and the two updated balances are
written.  The credit `to_balance + amount` is the `uint` crate `U256`
addition, which panics on overflow before any write happens. -/
def internal_transfer (s : TokenState) (frm dst : AccountHash) (amount : Nat) :
    TokenState × List Event × Option ContractError :=
  if frm = dst then
    (s, [], none)
  else
    let from_balance := get_balance s frm
    let to_balance := get_balance s dst
    if from_balance < amount then
      (s, [], some insufficient_balance_error)
    else if U256_MOD ≤ to_balance + amount then
      (s, [], some .overflowPanic)
    else
      let s1 := set_balance s frm (from_balance - amount)
      let s2 := set_balance s1 dst (to_balance + amount)
      (s2, [.transfer frm dst amount], none)

/-- lib.rs lines 193-196: `do_transfer`; `runtime::get_caller()` is the
`caller` parameter. -/
def do_transfer (s : TokenState) (caller dst : AccountHash) (amount : Nat) :
    TokenState × List Event × Option ContractError :=
  internal_transfer s caller dst amount

/-- lib.rs lines 200-210: `do_approve`; unconditional overwrite of the
allowance entry plus an Approval event. -/
def do_approve (s : TokenState) (caller spender : AccountHash) (amount : Nat) :
    TokenState × List Event × Option ContractError :=
  (set_allowance s caller spender amount, [.approval caller spender amount], none)

/-- lib.rs lines 220-242: `do_transfer_from`; the allowance of the caller is
checked first, then `internal_transfer` runs (propagating its error), and
only after it succeeded is the reduced allowance written back. -/
def do_transfer_from (s : TokenState) (spender owner dst : AccountHash) (amount : Nat) :
    TokenState × List Event × Option ContractError :=
  let current_allowance := get_allowance s owner spender
  if current_allowance < amount then
    (s, [], some insufficient_allowance_error)
  else
    let r := internal_transfer s owner dst amount
    match r.2.2 with
    | some e => (r.1, r.2.1, some e)
    | none =>
      let new_allowance := current_allowance - amount
      let s2 := set_allowance r.1 owner spender new_allowance
      (s2, r.2.1 ++ [.approval owner spender new_allowance], none)

/-- lib.rs lines 248-266: `construct_message`.  The typed `ContractHash` and
`AccountHash` arguments are represented by their `Display` renderings (the
strings that `format!` interpolates); the numeric fields are rendered in
decimal exactly as the `Display` of `U256` and `u64` does. -/
def construct_message (chain_name contract_hash recipient : String)
    (amount nonce deadline : Nat) : String :=
  CASPER_MESSAGE_PREFIX ++ ":" ++ chain_name ++ ":" ++ contract_hash ++ ":" ++
    recipient ++ ":" ++ toString amount ++ ":" ++ toString nonce ++ ":" ++ toString deadline

/-- lib.rs lines 293-301: `validate_deadline`; `current_timestamp` is the
host block time. -/
def validate_deadline (current_timestamp deadline : Nat) : Option ContractError :=
  if deadline < current_timestamp then some expired_error else none

/-- lib.rs lines 321-329: `validate_nonce`. -/
def validate_nonce (s : TokenState) (account : AccountHash) (provided_nonce : Nat) :
    Option ContractError :=
  let current_nonce := get_nonce s account
  if provided_nonce ≠ current_nonce then some invalid_nonce_error else none

/-- lib.rs lines 340-348: `process_nonce_for_payment`; validate, then
increment. -/
def process_nonce_for_payment (s : TokenState) (account : AccountHash)
    (provided_nonce : Nat) : TokenState × Option ContractError :=
  match validate_nonce s account provided_nonce with
  | some e => (s, some e)
  | none =>
    let inc := increment_nonce s account
    (inc.1, inc.2.2)

/-- The external capabilities consumed by `do_claim_payment`: the host block
time (`runtime::get_blocktime`), the stored contract hash rendering
(`get_contract_hash`), the `Display` rendering of accounts, the account
derivation `AccountHash::from(&PublicKey)`, and the signature check
(`hex::decode` + `Signature::from_bytes` + `casper_types::crypto::verify`,
collapsed into one boolean oracle: `verify_signature` maps every failure of
the three steps to `invalid_signature_error`). -/
structure Ctx where
  blocktime : Nat
  contract_hash : String
  showAccount : AccountHash → String
  account_of_key : PublicKey → AccountHash
  sig_verify_ok : String → String → PublicKey → Bool

/-- lib.rs lines 270-289: `verify_signature`; hex-decode failure, signature
decoding failure and cryptographic rejection all yield
`invalid_signature_error`. -/
def verify_signature (ctx : Ctx) (message signature_hex : String) (public_key : PublicKey) :
    Option ContractError :=
  if ctx.sig_verify_ok message signature_hex public_key then none
  else some invalid_signature_error

/-- lib.rs lines 352-393: `do_claim_payment`, the raw statement-by-statement
execution: deadline check, account derivation, nonce validation plus
increment (a durable write in the raw layer), message reconstruction with the
hardcoded chain name "casper", signature verification, transfer, event. -/
def do_claim_payment (ctx : Ctx) (s : TokenState) (user_pubkey : PublicKey)
    (recipient : AccountHash) (amount nonce deadline : Nat) (signature : String) :
    TokenState × List Event × Option ContractError :=
  match validate_deadline ctx.blocktime deadline with
  | some e => (s, [], some e)
  | none =>
    let user_account := ctx.account_of_key user_pubkey
    let pn := process_nonce_for_payment s user_account nonce
    match pn.2 with
    | some e => (pn.1, [], some e)
    | none =>
      let message := construct_message "casper" ctx.contract_hash
        (ctx.showAccount recipient) amount nonce deadline
      match verify_signature ctx message signature user_pubkey with
      | some e => (pn.1, [], some e)
      | none =>
        let tr := internal_transfer pn.1 user_account recipient amount
        match tr.2.2 with
        | some e => (tr.1, tr.2.1, some e)
        | none => (tr.1, tr.2.1 ++ [.paymentClaimed user_account recipient amount nonce], none)

/-- The Casper entry-point boundary: each `extern "C"` entry point ends in
`.unwrap_or_revert()`, and on a revert or panic the execution engine discards
every write and every event of the call (spec section 5: the host provides
all-or-nothing transactional rollback).  The observable post-state of a
failing call is therefore the pre-state. -/
def run_call (pre : TokenState) (r : TokenState × List Event × Option ContractError) :
    TokenState × List Event × Option ContractError :=
  match r.2.2 with
  | some e => (pre, [], some e)
  | none => r

/-- The `transfer` entry point, lib.rs lines 589-594. -/
def transfer_call (s : TokenState) (caller dst : AccountHash) (amount : Nat) :
    TokenState × List Event × Option ContractError :=
  run_call s (do_transfer s caller dst amount)

/-- The `approve` entry point, lib.rs lines 598-603. -/
def approve_call (s : TokenState) (caller spender : AccountHash) (amount : Nat) :
    TokenState × List Event × Option ContractError :=
  run_call s (do_approve s caller spender amount)

/-- The `transfer_from` entry point, lib.rs lines 617-623. -/
def transfer_from_call (s : TokenState) (spender owner dst : AccountHash) (amount : Nat) :
    TokenState × List Event × Option ContractError :=
  run_call s (do_transfer_from s spender owner dst amount)

/-- The `claim_payment` entry point, lib.rs lines 636-645. -/
def claim_payment_call (ctx : Ctx) (s : TokenState) (user_pubkey : PublicKey)
    (recipient : AccountHash) (amount nonce deadline : Nat) (signature : String) :
    TokenState × List Event × Option ContractError :=
  run_call s (do_claim_payment ctx s user_pubkey recipient amount nonce deadline signature)

-- Concrete contexts and states used to instantiate the theorems below.

/-- A context whose external signature oracle accepts everything. -/
def sampleCtx : Ctx :=
  { blocktime := 5
    contract_hash := "hash"
    showAccount := fun a => toString a
    account_of_key := fun k => k
    sig_verify_ok := fun _ _ _ => true }

/-- A context whose external signature oracle rejects everything, exercising
the signature-verification failure path. -/
def sampleBadSigCtx : Ctx :=
  { sampleCtx with sig_verify_ok := fun _ _ _ => false }

/-- A ledger where account 1 holds 1000 tokens and account 10 has approved
account 11 to spend 50. -/
def sampleState : TokenState :=
  { balances := fun a => if a = 1 then 1000 else 0
    allowances := fun o sp => if o = 10 ∧ sp = 11 then 50 else 0
    nonces := fun _ => 0 }

/-- Every nonce sits at the maximal representable `u64` value. -/
def maxNonceState : TokenState :=
  { balances := fun _ => 0
    allowances := fun _ _ => 0
    nonces := fun _ => U64_MOD - 1 }

/-- Every balance sits at the maximal representable `U256` value. -/
def maxBalanceState : TokenState :=
  { balances := fun _ => U256_MOD - 1
    allowances := fun _ _ => 0
    nonces := fun _ => 0 }

/-- Account 10 holds 1000 tokens; no allowance has been granted yet. -/
def approveBase : TokenState :=
  { balances := fun a => if a = 10 then 1000 else 0
    allowances := fun _ _ => 0
    nonces := fun _ => 0 }

/-- The ledger after owner 10 performed `approve(11, 50)` on `approveBase`. -/
def approvedState : TokenState :=
  (approve_call approveBase 10 11 50).1

-- Generic lemmas about the entry-point revert boundary.

/-- The entry-point boundary preserves the reported outcome of the raw run. -/
theorem run_call_result (pre : TokenState)
    (r : TokenState × List Event × Option ContractError) :
    (run_call pre r).2.2 = r.2.2 := by
  unfold run_call
  split
  next e h => simp [h]
  next => rfl

/-- A failing call observably keeps the pre-state. -/
theorem run_call_fail (pre : TokenState)
    (r : TokenState × List Event × Option ContractError)
    (h : r.2.2 ≠ none) : (run_call pre r).1 = pre := by
  unfold run_call
  split
  next e _ => rfl
  next hnone => exact absurd hnone h

/-- A successful call passes the raw result through unchanged. -/
theorem run_call_ok (pre : TokenState)
    (r : TokenState × List Event × Option ContractError)
    (h : r.2.2 = none) : run_call pre r = r := by
  unfold run_call
  split
  next e heq => rw [heq] at h; cases h
  next => rfl

-- Frame lemmas for the storage writers.

theorem set_balance_nonces (s : TokenState) (a : AccountHash) (v : Nat) :
    (set_balance s a v).nonces = s.nonces := rfl

theorem set_balance_allowances (s : TokenState) (a : AccountHash) (v : Nat) :
    (set_balance s a v).allowances = s.allowances := rfl

theorem set_nonce_balances (s : TokenState) (a : AccountHash) (v : Nat) :
    (set_nonce s a v).balances = s.balances := rfl

theorem set_allowance_balances (s : TokenState) (o sp : AccountHash) (v : Nat) :
    (set_allowance s o sp v).balances = s.balances := rfl

theorem set_allowance_nonces (s : TokenState) (o sp : AccountHash) (v : Nat) :
    (set_allowance s o sp v).nonces = s.nonces := rfl

/-- Writing a balance is a pointwise function update. -/
theorem set_balance_balances (s : TokenState) (a : AccountHash) (v : Nat) :
    (set_balance s a v).balances = Function.update s.balances a v := by
  funext x
  simp [set_balance, Function.update_apply]

theorem set_nonce_nonces_self (s : TokenState) (a : AccountHash) (v : Nat) :
    (set_nonce s a v).nonces a = v := by
  simp [set_nonce]

-- Shape lemmas for `internal_transfer`.

/-- `internal_transfer` never touches the nonce dictionary. -/
theorem internal_transfer_nonces (s : TokenState) (frm dst : AccountHash) (amount : Nat) :
    ((internal_transfer s frm dst amount).1).nonces = s.nonces := by
  simp only [internal_transfer]
  split
  · rfl
  · split
    · rfl
    · split
      · rfl
      · rfl

/-- `internal_transfer` never touches the allowance dictionary. -/
theorem internal_transfer_allowances (s : TokenState) (frm dst : AccountHash) (amount : Nat) :
    ((internal_transfer s frm dst amount).1).allowances = s.allowances := by
  simp only [internal_transfer]
  split
  · rfl
  · split
    · rfl
    · split
      · rfl
      · rfl

/-- The successful non-self path of `internal_transfer`, as an equation. -/
theorem internal_transfer_ok_eq (s : TokenState) (frm dst : AccountHash) (amount : Nat)
    (hne : frm ≠ dst) (hbal : ¬ get_balance s frm < amount)
    (hov : ¬ U256_MOD ≤ get_balance s dst + amount) :
    internal_transfer s frm dst amount =
      (set_balance (set_balance s frm (get_balance s frm - amount)) dst
         (get_balance s dst + amount),
       [Event.transfer frm dst amount], none) := by
  simp only [internal_transfer, if_neg hne, if_neg hbal, if_neg hov]

/-- The insufficient-balance path of `internal_transfer`. -/
theorem internal_transfer_insufficient (s : TokenState) (frm dst : AccountHash) (amount : Nat)
    (hne : frm ≠ dst) (hbal : get_balance s frm < amount) :
    internal_transfer s frm dst amount = (s, [], some insufficient_balance_error) := by
  simp only [internal_transfer, if_neg hne, if_pos hbal]

/-- A failing `internal_transfer` performed no write at all: the returned
state is the input state (the balance check and the overflow panic both
precede the first `set_balance`). -/
theorem internal_transfer_fail (s : TokenState) (frm dst : AccountHash) (amount : Nat)
    (e : ContractError) :
    (internal_transfer s frm dst amount).2.2 = some e →
    internal_transfer s frm dst amount = (s, [], some e) := by
  simp only [internal_transfer]
  split
  · intro h; cases h
  · split
    · intro h
      injection h with h
      rw [← h]
    · split
      · intro h
        injection h with h
        rw [← h]
      · intro h; cases h

/-- The only outcomes of `internal_transfer`: success, insufficient balance,
or the `U256` overflow panic. -/
theorem internal_transfer_errs (s : TokenState) (frm dst : AccountHash) (amount : Nat) :
    (internal_transfer s frm dst amount).2.2 = none
    ∨ (internal_transfer s frm dst amount).2.2 = some insufficient_balance_error
    ∨ (internal_transfer s frm dst amount).2.2 = some ContractError.overflowPanic := by
  simp only [internal_transfer]
  split
  · exact Or.inl rfl
  · split
    · exact Or.inr (Or.inl rfl)
    · split
      · exact Or.inr (Or.inr rfl)
      · exact Or.inl rfl

/-- Balance equations of a successful non-self `internal_transfer`. -/
theorem internal_transfer_ok_balances (s : TokenState) (frm dst : AccountHash) (amount : Nat)
    (hne : frm ≠ dst) (hok : (internal_transfer s frm dst amount).2.2 = none) :
    amount ≤ get_balance s frm
    ∧ ((internal_transfer s frm dst amount).1).balances frm = get_balance s frm - amount
    ∧ ((internal_transfer s frm dst amount).1).balances dst = get_balance s dst + amount := by
  revert hok
  simp only [internal_transfer, if_neg hne]
  split
  · intro h; cases h
  next hbal =>
    split
    · intro h; cases h
    next hov =>
      intro _
      refine ⟨Nat.le_of_not_lt hbal, ?_, ?_⟩
      · simp [set_balance, get_balance, if_neg hne]
      · simp [set_balance, get_balance]

/-- Conservation core: over any finite set of accounts containing both the
sender and the recipient, `internal_transfer` preserves the balance sum. -/
theorem internal_transfer_balances_sum (s : TokenState) (frm dst : AccountHash)
    (amount : Nat) (S : Finset AccountHash) (hf : frm ∈ S) (hd : dst ∈ S) :
    ∑ a in S, ((internal_transfer s frm dst amount).1).balances a
      = ∑ a in S, s.balances a := by
  simp only [internal_transfer]
  split
  · rfl
  next hne =>
    split
    · rfl
    next hbal =>
      split
      · rfl
      next hov =>
        simp only [get_balance, set_balance_balances]
        have hf2 : frm ∈ S \ {dst} := by
          rw [Finset.mem_sdiff, Finset.mem_singleton]
          exact ⟨hf, hne⟩
        rw [Finset.sum_update_of_mem hd, Finset.sum_update_of_mem hf2,
          Finset.sum_eq_sum_diff_singleton_add hd s.balances,
          Finset.sum_eq_sum_diff_singleton_add hf2 s.balances]
        have hc : ¬ s.balances frm < amount := hbal
        omega

-- Lemmas about the nonce registry.

/-- `process_nonce_for_payment` never touches balances. -/
theorem process_nonce_balances (s : TokenState) (account : AccountHash) (provided : Nat) :
    ((process_nonce_for_payment s account provided).1).balances = s.balances := by
  simp only [process_nonce_for_payment, increment_nonce]
  split
  · rfl
  · split
    · rfl
    · rfl

/-- `process_nonce_for_payment` never touches allowances. -/
theorem process_nonce_allowances (s : TokenState) (account : AccountHash) (provided : Nat) :
    ((process_nonce_for_payment s account provided).1).allowances = s.allowances := by
  simp only [process_nonce_for_payment, increment_nonce]
  split
  · rfl
  · split
    · rfl
    · rfl

/-- The nonce check passes exactly when the provided nonce is the stored
one. -/
theorem validate_nonce_none_iff (s : TokenState) (account : AccountHash) (provided : Nat) :
    validate_nonce s account provided = none ↔ provided = get_nonce s account := by
  simp only [validate_nonce]
  split
  next hne => exact iff_of_false (by simp) hne
  next hne => exact iff_of_true rfl (not_not.mp hne)

/-- A failing nonce check reports exactly `invalid_nonce_error`, on a
mismatched nonce. -/
theorem validate_nonce_some_iff (s : TokenState) (account : AccountHash) (provided : Nat)
    (e : ContractError) :
    validate_nonce s account provided = some e
      ↔ provided ≠ get_nonce s account ∧ e = invalid_nonce_error := by
  simp only [validate_nonce]
  split
  next hne =>
    constructor
    · intro h
      injection h with h
      exact ⟨hne, h.symm⟩
    · intro h
      rw [h.2]
  next hne =>
    constructor
    · intro h; cases h
    · intro h; exact absurd h.1 hne

/-- Inversion of a successful `process_nonce_for_payment`: the provided nonce
matched the stored one, the stored nonce was strictly below `u64::MAX`, and
the state now carries the incremented nonce. -/
theorem process_nonce_ok (s : TokenState) (account : AccountHash) (provided : Nat)
    (h : (process_nonce_for_payment s account provided).2 = none) :
    provided = get_nonce s account
    ∧ get_nonce s account + 1 < U64_MOD
    ∧ (process_nonce_for_payment s account provided).1
        = set_nonce s account (get_nonce s account + 1) := by
  revert h
  simp only [process_nonce_for_payment, increment_nonce]
  split
  · intro h; cases h
  next hvn =>
    split
    next hlt =>
      intro _
      exact ⟨(validate_nonce_none_iff s account provided).mp hvn, hlt, rfl⟩
    · intro h; cases h

/-- The only outcomes of `process_nonce_for_payment`: success, nonce
mismatch, or the (spec-modelled) checked-increment panic. -/
theorem process_nonce_errs (s : TokenState) (account : AccountHash) (provided : Nat) :
    (process_nonce_for_payment s account provided).2 = none
    ∨ (process_nonce_for_payment s account provided).2 = some invalid_nonce_error
    ∨ (process_nonce_for_payment s account provided).2 = some ContractError.overflowPanic := by
  simp only [process_nonce_for_payment, increment_nonce]
  split
  next e hvn =>
    rw [((validate_nonce_some_iff s account provided e).mp hvn).2]
    exact Or.inr (Or.inl rfl)
  · split
    · exact Or.inl rfl
    · exact Or.inr (Or.inr rfl)

/-- The deadline check either passes or reports exactly `expired_error`. -/
theorem validate_deadline_errs (now deadline : Nat) :
    validate_deadline now deadline = none
    ∨ validate_deadline now deadline = some expired_error := by
  unfold validate_deadline
  split
  · exact Or.inr rfl
  · exact Or.inl rfl

/-- The signature check either passes or reports exactly
`invalid_signature_error`. -/
theorem verify_signature_errs (ctx : Ctx) (message signature_hex : String)
    (public_key : PublicKey) :
    verify_signature ctx message signature_hex public_key = none
    ∨ verify_signature ctx message signature_hex public_key = some invalid_signature_error := by
  unfold verify_signature
  split
  · exact Or.inl rfl
  · exact Or.inr rfl

-- Lemmas about `do_transfer_from`.

/-- Inversion of a successful `do_transfer_from`: the allowance covered the
amount, the underlying transfer succeeded, and the final state is the
transfer result with the reduced allowance written on top. -/
theorem do_transfer_from_ok (s : TokenState) (spender owner dst : AccountHash)
    (amount : Nat)
    (h : (do_transfer_from s spender owner dst amount).2.2 = none) :
    ¬ get_allowance s owner spender < amount
    ∧ (internal_transfer s owner dst amount).2.2 = none
    ∧ (do_transfer_from s spender owner dst amount).1
        = set_allowance (internal_transfer s owner dst amount).1 owner spender
            (get_allowance s owner spender - amount) := by
  revert h
  simp only [do_transfer_from]
  split
  · intro h; cases h
  next hallow =>
    split
    next e heq => intro h; cases h
    next heq => intro _; exact ⟨hallow, heq, rfl⟩

/-- The only outcomes of `do_transfer_from`: success, insufficient allowance,
or an error propagated from `internal_transfer`. -/
theorem do_transfer_from_errs (s : TokenState) (spender owner dst : AccountHash)
    (amount : Nat) :
    (do_transfer_from s spender owner dst amount).2.2 = none
    ∨ (do_transfer_from s spender owner dst amount).2.2 = some insufficient_allowance_error
    ∨ (do_transfer_from s spender owner dst amount).2.2 = some insufficient_balance_error
    ∨ (do_transfer_from s spender owner dst amount).2.2 = some ContractError.overflowPanic := by
  simp only [do_transfer_from]
  split
  · exact Or.inr (Or.inl rfl)
  · split
    next e heq =>
      rcases internal_transfer_errs s owner dst amount with h | h | h
      · rw [heq] at h; cases h
      · rw [heq] at h
        injection h with h
        rw [h]
        exact Or.inr (Or.inr (Or.inl rfl))
      · rw [heq] at h
        injection h with h
        rw [h]
        exact Or.inr (Or.inr (Or.inr rfl))
    next => exact Or.inl rfl

-- Lemmas about `do_claim_payment`.

/-- Inversion of a successful `do_claim_payment`: the deadline check and the
nonce step passed, and the final state is the transfer applied to the
nonce-incremented state. -/
theorem do_claim_payment_ok (ctx : Ctx) (s : TokenState) (pk : PublicKey)
    (recipient : AccountHash) (amount nonce deadline : Nat) (sig : String)
    (h : (do_claim_payment ctx s pk recipient amount nonce deadline sig).2.2 = none) :
    validate_deadline ctx.blocktime deadline = none
    ∧ (process_nonce_for_payment s (ctx.account_of_key pk) nonce).2 = none
    ∧ (do_claim_payment ctx s pk recipient amount nonce deadline sig).1
        = (internal_transfer (process_nonce_for_payment s (ctx.account_of_key pk) nonce).1
            (ctx.account_of_key pk) recipient amount).1 := by
  revert h
  simp only [do_claim_payment]
  split
  next e hvd => intro h; cases h
  next hvd =>
    split
    next e hpn => intro h; cases h
    next hpn =>
      split
      next e hvs => intro h; cases h
      next hvs =>
        split
        next e htr => intro h; cases h
        next htr => intro _; exact ⟨hvd, hpn, rfl⟩

/-- The only outcomes of `do_claim_payment`: success, expiry, nonce
mismatch, invalid signature, insufficient balance, or an arithmetic panic. -/
theorem do_claim_payment_errs (ctx : Ctx) (s : TokenState) (pk : PublicKey)
    (recipient : AccountHash) (amount nonce deadline : Nat) (sig : String) :
    (do_claim_payment ctx s pk recipient amount nonce deadline sig).2.2 = none
    ∨ (do_claim_payment ctx s pk recipient amount nonce deadline sig).2.2 = some expired_error
    ∨ (do_claim_payment ctx s pk recipient amount nonce deadline sig).2.2 = some invalid_nonce_error
    ∨ (do_claim_payment ctx s pk recipient amount nonce deadline sig).2.2 = some invalid_signature_error
    ∨ (do_claim_payment ctx s pk recipient amount nonce deadline sig).2.2 = some insufficient_balance_error
    ∨ (do_claim_payment ctx s pk recipient amount nonce deadline sig).2.2 = some ContractError.overflowPanic := by
  simp only [do_claim_payment]
  split
  next e hvd =>
    rcases validate_deadline_errs ctx.blocktime deadline with h | h
    · rw [hvd] at h; cases h
    · rw [hvd] at h
      injection h with h
      rw [h]
      exact Or.inr (Or.inl rfl)
  next hvd =>
    split
    next e hpn =>
      rcases process_nonce_errs s (ctx.account_of_key pk) nonce with h | h | h
      · rw [hpn] at h; cases h
      · rw [hpn] at h
        injection h with h
        rw [h]
        exact Or.inr (Or.inr (Or.inl rfl))
      · rw [hpn] at h
        injection h with h
        rw [h]
        exact Or.inr (Or.inr (Or.inr (Or.inr (Or.inr rfl))))
    next hpn =>
      split
      next e hvs =>
        rcases verify_signature_errs ctx
            (construct_message "casper" ctx.contract_hash (ctx.showAccount recipient)
              amount nonce deadline) sig pk with h | h
        · rw [hvs] at h; cases h
        · rw [hvs] at h
          injection h with h
          rw [h]
          exact Or.inr (Or.inr (Or.inr (Or.inl rfl)))
      next hvs =>
        split
        next e htr =>
          rcases internal_transfer_errs
              (process_nonce_for_payment s (ctx.account_of_key pk) nonce).1
              (ctx.account_of_key pk) recipient amount with h | h | h
          · rw [htr] at h; cases h
          · rw [htr] at h
            injection h with h
            rw [h]
            exact Or.inr (Or.inr (Or.inr (Or.inr (Or.inl rfl))))
          · rw [htr] at h
            injection h with h
            rw [h]
            exact Or.inr (Or.inr (Or.inr (Or.inr (Or.inr rfl))))
        next htr => exact Or.inl rfl

-- The claims.

/-- C5: for every account x and every amount, including amounts strictly
greater than the balance of x, `transfer(x, x, amount)` succeeds and is a
no-op: the state is unchanged, no event is emitted, and no insufficient
balance check is reached, because `internal_transfer` returns `Ok` on
`from == to` before any check. -/
theorem self_transfer_noop (s : TokenState) (x : AccountHash) (amount : Nat) :
    transfer_call s x x amount = (s, [], none) := by
  have h1 : internal_transfer s x x amount = (s, [], none) := by
    unfold internal_transfer
    rw [if_pos rfl]
  simp only [transfer_call, do_transfer, h1]
  rfl

/-- C6: the deadline check of `claim_payment` fails with `Expired` exactly
when the current ledger time exceeds the deadline; a deadline equal to the
current time passes the check, and a deadline of current time minus one
fails with `Expired`. -/
theorem deadline_check_boundary (now deadline : Nat) :
    (validate_deadline now deadline = some expired_error ↔ deadline < now)
    ∧ validate_deadline now now = none
    ∧ (1 ≤ now → validate_deadline now (now - 1) = some expired_error) := by
  unfold validate_deadline
  refine ⟨⟨?_, ?_⟩, ?_, ?_⟩
  · intro h
    by_cases hc : deadline < now
    · exact hc
    · rw [if_neg hc] at h
      cases h
  · intro h
    rw [if_pos h]
  · rw [if_neg (lt_irrefl now)]
  · intro h
    rw [if_pos (by omega)]

/-- C6 witness at `now = 5`. -/
theorem deadline_check_boundary_witness :
    (validate_deadline 5 3 = some expired_error ↔ 3 < 5)
    ∧ validate_deadline 5 5 = none
    ∧ validate_deadline 5 (5 - 1) = some expired_error :=
  ⟨(deadline_check_boundary 5 3).1, (deadline_check_boundary 5 3).2.1,
    (deadline_check_boundary 5 3).2.2 (by decide)⟩

/-- C8: `construct_message` deterministically produces exactly the seven
fields domain prefix, chain name, contract identity, recipient, amount,
nonce, deadline, joined with the ":" delimiter in that fixed order, the
domain prefix being the fixed constant of constants.rs, independent of all
inputs. -/
theorem construct_message_canonical_format (chain_name contract_hash recipient : String)
    (amount nonce deadline : Nat) :
    construct_message chain_name contract_hash recipient amount nonce deadline
      = String.intercalate ":"
          [ CASPER_MESSAGE_PREFIX, chain_name, contract_hash, recipient,
            toString amount, toString nonce, toString deadline] := rfl

/-- C9: when the spender has enough allowance but the owner balance cannot
cover the amount (owner distinct from recipient), `transfer_from` fails with
`InsufficientBalance` and, already in the raw pre-revert execution, the state
is exactly the input state: the allowance deduction only happens after the
underlying transfer succeeded, so this failure path needs no rollback. -/
theorem transfer_from_insufficient_balance_no_rollback (s : TokenState)
    (spender owner dst : AccountHash) (amount : Nat) (hne : owner ≠ dst)
    (hallow : amount ≤ get_allowance s owner spender)
    (hbal : get_balance s owner < amount) :
    do_transfer_from s spender owner dst amount = (s, [], some insufficient_balance_error) := by
  have hit := internal_transfer_insufficient s owner dst amount hne hbal
  simp only [do_transfer_from, if_neg (by omega : ¬ get_allowance s owner spender < amount), hit]

/-- C9 witness: allowance 50, balance 5, requested amount 30. -/
theorem transfer_from_insufficient_balance_no_rollback_witness :
    do_transfer_from
        { balances := fun a => if a = 10 then 5 else 0
          allowances := fun o sp => if o = 10 ∧ sp = 11 then 50 else 0
          nonces := fun _ => 0 } 11 10 12 30
      = ({ balances := fun a => if a = 10 then 5 else 0
           allowances := fun o sp => if o = 10 ∧ sp = 11 then 50 else 0
           nonces := fun _ => 0 }, [], some insufficient_balance_error) :=
  transfer_from_insufficient_balance_no_rollback
    { balances := fun a => if a = 10 then 5 else 0
      allowances := fun o sp => if o = 10 ∧ sp = 11 then 50 else 0
      nonces := fun _ => 0 } 11 10 12 30 (by decide) (by decide) (by decide)

/-- C10: no callable operation ever fails with the `ZeroAddress` error (user
code 203): the operations are uniform in all account arguments (the all-zero
account, modelled as account 0, is quantified over like any other), and the
`zero_address_error` branch of the error taxonomy is unreachable in
`transfer`, `approve`, `transfer_from` and `claim_payment`. -/
theorem zero_address_error_unreachable :
    (∀ (s : TokenState) (caller dst : AccountHash) (amount : Nat),
      (transfer_call s caller dst amount).2.2 ≠ some zero_address_error)
    ∧ (∀ (s : TokenState) (caller spender : AccountHash) (amount : Nat),
      (approve_call s caller spender amount).2.2 ≠ some zero_address_error)
    ∧ (∀ (s : TokenState) (spender owner dst : AccountHash) (amount : Nat),
      (transfer_from_call s spender owner dst amount).2.2 ≠ some zero_address_error)
    ∧ (∀ (ctx : Ctx) (s : TokenState) (pk : PublicKey) (recipient : AccountHash)
        (amount nonce deadline : Nat) (sig : String),
      (claim_payment_call ctx s pk recipient amount nonce deadline sig).2.2
        ≠ some zero_address_error) := by
  refine ⟨?_, ?_, ?_, ?_⟩
  · intro s caller dst amount
    rw [transfer_call, run_call_result, do_transfer]
    rcases internal_transfer_errs s caller dst amount with h | h | h <;>
      rw [h] <;> decide
  · intro s caller spender amount
    rw [approve_call, run_call_result, do_approve]
    simp
  · intro s spender owner dst amount
    rw [transfer_from_call, run_call_result]
    rcases do_transfer_from_errs s spender owner dst amount with h | h | h | h <;>
      rw [h] <;> decide
  · intro ctx s pk recipient amount nonce deadline sig
    rw [claim_payment_call, run_call_result]
    rcases do_claim_payment_errs ctx s pk recipient amount nonce deadline sig with
      h | h | h | h | h | h <;> rw [h] <;> decide

/-- C10 witness: the all-zero account as recipient and spender at concrete
inputs. -/
theorem zero_address_error_unreachable_witness :
    (transfer_call sampleState 1 0 100).2.2 ≠ some zero_address_error
    ∧ (approve_call sampleState 1 0 100).2.2 ≠ some zero_address_error
    ∧ (transfer_from_call sampleState 0 10 0 30).2.2 ≠ some zero_address_error
    ∧ (claim_payment_call sampleCtx sampleState 1 0 100 0 10 "sig").2.2
        ≠ some zero_address_error :=
  ⟨zero_address_error_unreachable.1 sampleState 1 0 100,
    zero_address_error_unreachable.2.1 sampleState 1 0 100,
    zero_address_error_unreachable.2.2.1 sampleState 0 10 0 30,
    zero_address_error_unreachable.2.2.2 sampleCtx sampleState 1 0 100 0 10 "sig"⟩

/-- In the raw pre-revert execution, a signature-verification failure occurs
after the nonce has already been incremented: the host rollback modelled by
`run_call` is load-bearing for atomicity. -/
theorem do_claim_payment_mutates_nonce_before_revert :
    ((do_claim_payment sampleBadSigCtx sampleState 1 2 100 0 10 "sig").1).nonces 1 = 1
    ∧ (do_claim_payment sampleBadSigCtx sampleState 1 2 100 0 10 "sig").2.2
        = some invalid_signature_error := by decide

/-- C1: every failing `claim_payment` (expiry, nonce mismatch, signature
failure, insufficient balance, or arithmetic panic) observably leaves the
signer nonce and every account balance exactly as before the call — in
particular a signature failure occurring after the nonce has been validated
and incremented, because the entry-point boundary reverts the whole call. -/
theorem claim_payment_failure_preserves_state (ctx : Ctx) (s : TokenState) (pk : PublicKey)
    (recipient : AccountHash) (amount nonce deadline : Nat) (sig : String) (e : ContractError)
    (h : (claim_payment_call ctx s pk recipient amount nonce deadline sig).2.2 = some e) :
    (claim_payment_call ctx s pk recipient amount nonce deadline sig).1 = s
    ∧ ((claim_payment_call ctx s pk recipient amount nonce deadline sig).1).nonces
        (ctx.account_of_key pk) = s.nonces (ctx.account_of_key pk)
    ∧ ∀ a, ((claim_payment_call ctx s pk recipient amount nonce deadline sig).1).balances a
        = s.balances a := by
  simp only [claim_payment_call] at h ⊢
  rw [run_call_result] at h
  have h1 : (run_call s (do_claim_payment ctx s pk recipient amount nonce deadline sig)).1 = s :=
    run_call_fail s _ (by rw [h]; simp)
  exact ⟨h1, by rw [h1], fun a => by rw [h1]⟩

/-- C1 witness: a failing signature after a passed nonce check leaves the
observable state untouched. -/
theorem claim_payment_failure_preserves_state_witness :
    (claim_payment_call sampleBadSigCtx sampleState 1 2 100 0 10 "sig").1 = sampleState
    ∧ ((claim_payment_call sampleBadSigCtx sampleState 1 2 100 0 10 "sig").1).nonces
        (sampleBadSigCtx.account_of_key 1) = sampleState.nonces (sampleBadSigCtx.account_of_key 1)
    ∧ ∀ a, ((claim_payment_call sampleBadSigCtx sampleState 1 2 100 0 10 "sig").1).balances a
        = sampleState.balances a :=
  claim_payment_failure_preserves_state sampleBadSigCtx sampleState 1 2 100 0 10 "sig"
    invalid_signature_error (by decide)

/-- C2: a successful `claim_payment` advances the stored nonce of the signer
account by exactly one, `validate_nonce` succeeds exactly on the stored
nonce, and resubmitting the identical call (same nonce and signature, same
context) afterwards fails with `InvalidNonce`. -/
theorem claim_payment_nonce_advance_and_replay (ctx : Ctx) (s : TokenState) (pk : PublicKey)
    (recipient : AccountHash) (amount nonce deadline : Nat) (sig : String)
    (h : (claim_payment_call ctx s pk recipient amount nonce deadline sig).2.2 = none) :
    ((claim_payment_call ctx s pk recipient amount nonce deadline sig).1).nonces
        (ctx.account_of_key pk)
      = s.nonces (ctx.account_of_key pk) + 1
    ∧ (∀ account provided, validate_nonce s account provided = none
        ↔ provided = get_nonce s account)
    ∧ (claim_payment_call ctx
          ((claim_payment_call ctx s pk recipient amount nonce deadline sig).1)
          pk recipient amount nonce deadline sig).2.2 = some invalid_nonce_error := by
  simp only [claim_payment_call] at h ⊢
  rw [run_call_result] at h
  rw [run_call_ok s _ h]
  obtain ⟨hvd, hpn, hstate⟩ := do_claim_payment_ok ctx s pk recipient amount nonce deadline sig h
  obtain ⟨hprov, hlt, hpnstate⟩ := process_nonce_ok s (ctx.account_of_key pk) nonce hpn
  have hnon : ((do_claim_payment ctx s pk recipient amount nonce deadline sig).1).nonces
      (ctx.account_of_key pk) = s.nonces (ctx.account_of_key pk) + 1 := by
    rw [hstate, internal_transfer_nonces, hpnstate, set_nonce_nonces_self]
    rfl
  refine ⟨hnon, fun account provided => validate_nonce_none_iff s account provided, ?_⟩
  rw [run_call_result]
  generalize hgen : (do_claim_payment ctx s pk recipient amount nonce deadline sig).1 = s2 at hnon
  have hvn2 : validate_nonce s2 (ctx.account_of_key pk) nonce = some invalid_nonce_error := by
    rw [validate_nonce_some_iff]
    refine ⟨?_, rfl⟩
    show nonce ≠ get_nonce _ _
    unfold get_nonce
    rw [hnon, hprov]
    unfold get_nonce
    omega
  have hpn2 : process_nonce_for_payment s2 (ctx.account_of_key pk) nonce
      = (s2, some invalid_nonce_error) := by
    simp only [process_nonce_for_payment, hvn2]
  simp only [do_claim_payment, hvd, hpn2]

/-- C2 witness: a successful concrete claim, nonce 0 to 1, then the identical
resubmission fails with `InvalidNonce`. -/
theorem claim_payment_nonce_advance_and_replay_witness :
    ((claim_payment_call sampleCtx sampleState 1 2 100 0 10 "sig").1).nonces
        (sampleCtx.account_of_key 1)
      = sampleState.nonces (sampleCtx.account_of_key 1) + 1
    ∧ (∀ account provided, validate_nonce sampleState account provided = none
        ↔ provided = get_nonce sampleState account)
    ∧ (claim_payment_call sampleCtx
          ((claim_payment_call sampleCtx sampleState 1 2 100 0 10 "sig").1)
          1 2 100 0 10 "sig").2.2 = some invalid_nonce_error :=
  claim_payment_nonce_advance_and_replay sampleCtx sampleState 1 2 100 0 10 "sig" (by decide)

/-- C3: over every finite account set containing the two touched accounts,
`transfer`, `transfer_from` and `claim_payment` — successful or failing —
preserve the sum of balances: no value is created or destroyed. -/
theorem ledger_operations_conserve_balance_sum :
    (∀ (s : TokenState) (caller dst : AccountHash) (amount : Nat) (S : Finset AccountHash),
      caller ∈ S → dst ∈ S →
      ∑ a in S, ((transfer_call s caller dst amount).1).balances a = ∑ a in S, s.balances a)
    ∧ (∀ (s : TokenState) (spender owner dst : AccountHash) (amount : Nat)
        (S : Finset AccountHash), owner ∈ S → dst ∈ S →
      ∑ a in S, ((transfer_from_call s spender owner dst amount).1).balances a
        = ∑ a in S, s.balances a)
    ∧ (∀ (ctx : Ctx) (s : TokenState) (pk : PublicKey) (recipient : AccountHash)
        (amount nonce deadline : Nat) (sig : String) (S : Finset AccountHash),
      ctx.account_of_key pk ∈ S → recipient ∈ S →
      ∑ a in S, ((claim_payment_call ctx s pk recipient amount nonce deadline sig).1).balances a
        = ∑ a in S, s.balances a) := by
  refine ⟨?_, ?_, ?_⟩
  · intro s caller dst amount S hc hd
    simp only [transfer_call, do_transfer]
    cases hres : (internal_transfer s caller dst amount).2.2 with
    | none =>
      rw [run_call_ok s _ hres]
      exact internal_transfer_balances_sum s caller dst amount S hc hd
    | some e =>
      rw [run_call_fail s _ (by rw [hres]; simp)]
  · intro s spender owner dst amount S ho hd
    simp only [transfer_from_call]
    cases hres : (do_transfer_from s spender owner dst amount).2.2 with
    | none =>
      rw [run_call_ok s _ hres]
      obtain ⟨hallow, hok, hstate⟩ := do_transfer_from_ok s spender owner dst amount hres
      rw [hstate, set_allowance_balances]
      exact internal_transfer_balances_sum s owner dst amount S ho hd
    | some e =>
      rw [run_call_fail s _ (by rw [hres]; simp)]
  · intro ctx s pk recipient amount nonce deadline sig S hu hr
    simp only [claim_payment_call]
    cases hres : (do_claim_payment ctx s pk recipient amount nonce deadline sig).2.2 with
    | none =>
      rw [run_call_ok s _ hres]
      obtain ⟨hvd, hpn, hstate⟩ :=
        do_claim_payment_ok ctx s pk recipient amount nonce deadline sig hres
      rw [hstate]
      refine (internal_transfer_balances_sum
        (process_nonce_for_payment s (ctx.account_of_key pk) nonce).1
        (ctx.account_of_key pk) recipient amount S hu hr).trans ?_
      simp only [process_nonce_balances]
    | some e =>
      rw [run_call_fail s _ (by rw [hres]; simp)]

/-- C3 witness: the conservation equation at concrete calls of all three
operations. -/
theorem ledger_operations_conserve_balance_sum_witness :
    (∑ a in ({1, 2} : Finset AccountHash), ((transfer_call sampleState 1 2 100).1).balances a
      = ∑ a in ({1, 2} : Finset AccountHash), sampleState.balances a)
    ∧ (∑ a in ({10, 12} : Finset AccountHash),
        ((transfer_from_call approvedState 11 10 12 30).1).balances a
      = ∑ a in ({10, 12} : Finset AccountHash), approvedState.balances a)
    ∧ (∑ a in ({1, 2} : Finset AccountHash),
        ((claim_payment_call sampleCtx sampleState 1 2 100 0 10 "sig").1).balances a
      = ∑ a in ({1, 2} : Finset AccountHash), sampleState.balances a) :=
  ⟨ledger_operations_conserve_balance_sum.1 sampleState 1 2 100 {1, 2}
      (by decide) (by decide),
    ledger_operations_conserve_balance_sum.2.1 approvedState 11 10 12 30 {10, 12}
      (by decide) (by decide),
    ledger_operations_conserve_balance_sum.2.2 sampleCtx sampleState 1 2 100 0 10 "sig" {1, 2}
      (by decide) (by decide)⟩

/-- C4: ledger and nonce arithmetic is unsigned and overflow-checked: the
nonce increment writes exactly nonce + 1 while it fits in a `u64` and is a
fatal panic (no wrapped write) at `u64::MAX`; a balance credit past the
`U256` maximum is a fatal panic leaving the state untouched (no wrap); and a
successful debit never wraps because the amount is known to be covered. -/
theorem arithmetic_overflow_checked (s : TokenState) (acct : AccountHash) :
    (get_nonce s acct + 1 < U64_MOD →
      increment_nonce s acct
        = (set_nonce s acct (get_nonce s acct + 1), get_nonce s acct + 1, none))
    ∧ (get_nonce s acct = U64_MOD - 1 →
      increment_nonce s acct = (s, 0, some ContractError.overflowPanic))
    ∧ (∀ (frm dst : AccountHash) (amount : Nat), frm ≠ dst →
        ¬ get_balance s frm < amount → U256_MOD ≤ get_balance s dst + amount →
        internal_transfer s frm dst amount = (s, [], some ContractError.overflowPanic))
    ∧ (∀ (frm dst : AccountHash) (amount : Nat), frm ≠ dst →
        (internal_transfer s frm dst amount).2.2 = none →
        amount ≤ get_balance s frm) := by
  refine ⟨?_, ?_, ?_, ?_⟩
  · intro h
    simp only [increment_nonce, if_pos h]
  · intro h
    have h0 : 1 ≤ U64_MOD := by norm_num [U64_MOD]
    have hc : ¬ get_nonce s acct + 1 < U64_MOD := by omega
    simp only [increment_nonce, if_neg hc]
  · intro frm dst amount hne hbal hov
    simp only [internal_transfer, if_neg hne, if_neg hbal, if_pos hov]
  · intro frm dst amount hne hok
    exact (internal_transfer_ok_balances s frm dst amount hne hok).1

/-- C4 witness: the fatal panics at the `u64` and `U256` maxima, and the
exact increment below the maximum. -/
theorem arithmetic_overflow_checked_witness :
    increment_nonce maxNonceState 7 = (maxNonceState, 0, some ContractError.overflowPanic)
    ∧ internal_transfer maxBalanceState 0 1 5
        = (maxBalanceState, [], some ContractError.overflowPanic)
    ∧ increment_nonce sampleState 3
        = (set_nonce sampleState 3 (get_nonce sampleState 3 + 1),
           get_nonce sampleState 3 + 1, none) :=
  ⟨(arithmetic_overflow_checked maxNonceState 7).2.1 (by decide),
    (arithmetic_overflow_checked maxBalanceState 0).2.2.1 0 1 5
      (by decide) (by decide) (by decide),
    (arithmetic_overflow_checked sampleState 3).1 (by decide)⟩

/-- C7 counterexample: spender 11 holds allowance 50 from owner 10 and calls
`transfer_from` with the recipient equal to the owner.  The call succeeds and
no value moves (the underlying transfer is the self-transfer no-op), yet the
allowance drops from 50 to 20: the allowance is reduced although no value was
actually transferred, refuting the claim as stated at this input. -/
theorem transfer_from_allowance_cex :
    (transfer_from_call approvedState 11 10 10 30).2.2 = none
    ∧ ((transfer_from_call approvedState 11 10 10 30).1).balances 10
        = approvedState.balances 10
    ∧ approvedState.allowances 10 11 = 50
    ∧ ((transfer_from_call approvedState 11 10 10 30).1).allowances 10 11 = 20 := by
  decide

/-- C7 amended: for owner distinct from recipient, a successful
`transfer_from` requires allowance at least the amount, moves exactly the
amount from owner to recipient, and reduces the allowance by exactly the
amount; when the recipient equals the owner the underlying transfer is a
no-op on balances and the allowance is nevertheless reduced by the amount. -/
theorem transfer_from_allowance_amended (s : TokenState) (spender owner dst : AccountHash)
    (amount : Nat) (hne : owner ≠ dst)
    (h : (transfer_from_call s spender owner dst amount).2.2 = none) :
    amount ≤ get_allowance s owner spender
    ∧ ((transfer_from_call s spender owner dst amount).1).allowances owner spender
        = get_allowance s owner spender - amount
    ∧ ((transfer_from_call s spender owner dst amount).1).balances dst
        = get_balance s dst + amount
    ∧ ((transfer_from_call s spender owner dst amount).1).balances owner
        = get_balance s owner - amount := by
  simp only [transfer_from_call] at h ⊢
  rw [run_call_result] at h
  rw [run_call_ok s _ h]
  obtain ⟨hallow, hok, hstate⟩ := do_transfer_from_ok s spender owner dst amount h
  obtain ⟨hle, hfrm, hdst⟩ := internal_transfer_ok_balances s owner dst amount hne hok
  refine ⟨Nat.le_of_not_lt hallow, ?_, ?_, ?_⟩
  · rw [hstate]
    simp [set_allowance]
  · rw [hstate, set_allowance_balances]
    exact hdst
  · rw [hstate, set_allowance_balances]
    exact hfrm

/-- C7 amended witness: the end-to-end approve(11, 50) then
transfer_from(10, 12, 30) scenario: allowance 50 drops to 20 and balance of
the recipient rises by 30. -/
theorem transfer_from_allowance_amended_witness :
    30 ≤ get_allowance approvedState 10 11
    ∧ ((transfer_from_call approvedState 11 10 12 30).1).allowances 10 11
        = get_allowance approvedState 10 11 - 30
    ∧ ((transfer_from_call approvedState 11 10 12 30).1).balances 12
        = get_balance approvedState 12 + 30
    ∧ ((transfer_from_call approvedState 11 10 12 30).1).balances 10
        = get_balance approvedState 10 - 30 :=
  transfer_from_allowance_amended approvedState 11 10 12 30 (by decide) (by decide)

end CasperX402
